import Mathlib

/-!
Verification of the ServiceM8 token-extraction scripts.

This file shallowly embeds the token-discovery, cookie, retry, output and
webhook logic of the repository (src/main.py, src/main1.py, src/main4.py,
src/webhook_test.py).  Pure string processing (the JavaScript regular
expressions run through `driver.execute_script`, the cookie-header join, the
response assembly, the JSON written to result.json) is translated into
executable Lean functions over `List Char` / `String`; the browser-dependent
stages (login, navigation, retries) are modelled as functions over an explicit
list of per-attempt outcomes, one constructor per observable result of an
attempt in the source.
-/

namespace SM8

/-! ### Characters and JS-regex building blocks

The extraction JavaScript uses only regular expressions of the shape
`LITERAL CLASS* s_auth=([a-f0-9]+)` (greedy or lazy middle, optional `i`
flag) plus the bare `s_auth=([a-f0-9]+)`.  We embed exactly those, with
JavaScript leftmost-match / backtracking semantics. -/

/-- Single-quote character (written via its code point). -/
def sqc : Char := Char.ofNat 39

/-- Double-quote character. -/
def dqc : Char := Char.ofNat 34

/-- Newline, excluded by the JS `.` class. -/
def nlc : Char := Char.ofNat 10

/-- Carriage return, excluded by the JS `.` class. -/
def crc : Char := Char.ofNat 13

/-- U+2028 line separator, excluded by the JS `.` class. -/
def lsc : Char := Char.ofNat 0x2028

/-- U+2029 paragraph separator, excluded by the JS `.` class. -/
def psc : Char := Char.ofNat 0x2029

/-- Character comparison, optionally case-insensitive (JS `i` flag;
all literals in the scripts are ASCII). -/
def chEq (ci : Bool) (a b : Char) : Bool :=
  if ci then a.toLower == b.toLower else a == b

/-- Literal-prefix test, optionally case-insensitive. -/
def litPre (ci : Bool) : List Char → List Char → Bool
  | [], _ => true
  | _ :: _, [] => false
  | a :: as, b :: bs => chEq ci a b && litPre ci as bs

/-- Substring containment, JS `String.prototype.includes` (case sensitive). -/
def containsSub (nd : List Char) : List Char → Bool
  | [] => nd.isEmpty
  | c :: cs => litPre false nd (c :: cs) || containsSub nd cs

/-- The character class `[a-f0-9]`; with the `i` flag it also accepts `A`-`F`. -/
def hexOf (ci : Bool) (c : Char) : Bool :=
  (Char.ofNat 97 ≤ c && c ≤ Char.ofNat 102) ||
  (Char.ofNat 48 ≤ c && c ≤ Char.ofNat 57) ||
  (ci && (Char.ofNat 65 ≤ c && c ≤ Char.ofNat 70))

/-- The literal `s_auth=`. -/
def authLit : List Char := "s_auth=".data

/-- Match of `s_auth=([a-f0-9]+)` anchored at the head of `s`: the token is the
maximal hex run after the literal, and at least one hex character is required. -/
def authAt (ci : Bool) (s : List Char) : Option (List Char) :=
  if litPre ci authLit s then
    let t := (s.drop 7).takeWhile (hexOf ci)
    if t.isEmpty then none else some t
  else none

/-- All positions (with captured tokens) at which `s_auth=([a-f0-9]+)` matches,
in increasing position order. -/
def authOccs (ci : Bool) : List Char → List (Nat × List Char)
  | [] => []
  | c :: cs =>
    let tail := (authOccs ci cs).map (fun p => (p.1 + 1, p.2))
    match authAt ci (c :: cs) with
    | some t => (0, t) :: tail
    | none => tail

/-- Token of the first `s_auth=([a-f0-9]+)` match in `s` (how the scripts run
`str.match(/s_auth=([a-f0-9]+)/)`, flagless, on a previously matched string
or on a window property). -/
def firstAuthTok (s : List Char) : Option (List Char) :=
  ((authOccs false s).head?).map Prod.snd

/-- A pattern `lit CLASS(*?|*) s_auth=([a-f0-9]+)` with `g` and optional `i`
flags, covering every name-bearing regex in `extract_api_data`. -/
structure Pat where
  lit : List Char
  mid : Char → Bool
  lazyMid : Bool
  ci : Bool

/-- Length of the match of `p` anchored at the head of `s`, with JS
backtracking: the greedy middle selects the farthest `s_auth=` reachable
through the class, the lazy middle the nearest. -/
def patMatchLen (p : Pat) (s : List Char) : Option Nat :=
  if litPre p.ci p.lit s then
    let rest := s.drop p.lit.length
    let m := (rest.takeWhile p.mid).length
    let occs := (authOccs p.ci rest).filter (fun q => decide (q.1 ≤ m))
    let pick := if p.lazyMid then occs.head? else occs.getLast?
    pick.map (fun q => p.lit.length + q.1 + 7 + q.2.length)
  else none

/-- Global scan (the JS `g` flag): leftmost match, then continue after it.
`fuel` only guarantees termination; every produced match has positive length,
so `s.length + 1` fuel never runs out. -/
def gScan (f : List Char → Option Nat) : Nat → List Char → List (List Char)
  | 0, _ => []
  | _ + 1, [] => []
  | fuel + 1, c :: cs =>
    match f (c :: cs) with
    | some len => (c :: cs).take len :: gScan f fuel ((c :: cs).drop (max len 1))
    | none => gScan f fuel cs

/-- All matches of pattern `p` in `s` (JS `str.match(p)` with `g`). -/
def gMatches (p : Pat) (s : List Char) : List (List Char) :=
  gScan (patMatchLen p) (s.length + 1) s

/-- Captured tokens of all matches of the bare `/s_auth=([a-f0-9]+)/g`. -/
def authToksScan : Nat → List Char → List (List Char)
  | 0, _ => []
  | _ + 1, [] => []
  | fuel + 1, c :: cs =>
    match authAt false (c :: cs) with
    | some t => t :: authToksScan fuel ((c :: cs).drop (7 + t.length))
    | none => authToksScan fuel cs

/-- Tokens of `/s_auth=([a-f0-9]+)/g` over `s`, in match order. -/
def authToks (s : List Char) : List (List Char) :=
  authToksScan (s.length + 1) s

/-! ### Character classes used by the scripts' patterns -/

/-- The class complement of both quote characters, JS `[^'"]`. -/
def notQuote (c : Char) : Bool := !(c == sqc || c == dqc)

/-- The class complement of the single quote. -/
def notSQ (c : Char) : Bool := !(c == sqc)

/-- The class complement of the double quote. -/
def notDQ (c : Char) : Bool := !(c == dqc)

/-- The JS `.` class (everything but line terminators). -/
def dotCls (c : Char) : Bool := !(c == nlc || c == crc || c == lsc || c == psc)

/-- Wrap a name in single quotes (for the quoted patterns of main.py). -/
def sqWrap (s : List Char) : List Char := sqc :: s ++ [sqc]

/-- Wrap a name in double quotes. -/
def dqWrap (s : List Char) : List Char := dqc :: s ++ [dqc]

/-- `NAME[^'"]*s_auth=([a-f0-9]+)` with only the `g` flag — the single pattern
per RPC name in the script-tag scan of main1.py and main4.py. -/
def patG (name : String) : Pat := ⟨name.data, notQuote, false, false⟩

/-- The four `CalendarStoreRequest` patterns of main.py (`gi` flags). -/
def calPats : List Pat :=
  [⟨"CalendarStoreRequest".data, notQuote, false, true⟩,
   ⟨"CalendarStoreRequest".data, dotCls, true, true⟩,
   ⟨sqWrap "CalendarStoreRequest".data, notSQ, false, true⟩,
   ⟨dqWrap "CalendarStoreRequest".data, notDQ, false, true⟩]

/-- The four `UpdateReminderForJobActivity` patterns of main.py. -/
def updPats : List Pat :=
  [⟨"PluginReminders_UpdateReminderForJobActivity".data, notQuote, false, true⟩,
   ⟨"UpdateReminderForJobActivity".data, notQuote, false, true⟩,
   ⟨sqWrap "UpdateReminderForJobActivity".data, notSQ, false, true⟩,
   ⟨dqWrap "UpdateReminderForJobActivity".data, notDQ, false, true⟩]

/-- The four `SaveRecurringJobSchedule` patterns of main.py. -/
def savePats : List Pat :=
  [⟨"PluginReminders_SaveRecurringJobSchedule".data, notQuote, false, true⟩,
   ⟨"SaveRecurringJobSchedule".data, notQuote, false, true⟩,
   ⟨sqWrap "SaveRecurringJobSchedule".data, notSQ, false, true⟩,
   ⟨dqWrap "SaveRecurringJobSchedule".data, notDQ, false, true⟩]

/-! ### Token assignment (script-tag scan)

Each `matches.forEach(...)` in the scripts re-runs `/s_auth=([a-f0-9]+)/` on
the matched substring and, if it matches, overwrites the entry of the token
map — so within a block the last successful match wins. -/

/-- One `forEach` assignment step. -/
def assignTok (cur : Option String) (m : List Char) : Option String :=
  match firstAuthTok m with
  | some t => some (String.mk t)
  | none => cur

/-- Process one script block's matches, for a pattern list run in order
(main1/main4 use a single pattern, main.py four per name). -/
def blockAssign (pats : List Pat) (cur : Option String) (content : List Char) :
    Option String :=
  ((pats.map (fun p => gMatches p content)).flatten).foldl assignTok cur

/-! ### extract_api_data of main1.py / main4.py (identical JS) -/

/-- The three-entry token map of main1.py / main4.py. -/
structure Toks1 where
  calendar : Option String
  update : Option String
  save : Option String
deriving DecidableEq, Repr

/-- Python truthiness of the JS object returned to `extract_with_retry`. -/
def Toks1.isEmptyMap (t : Toks1) : Bool :=
  t.calendar.isNone && t.update.isNone && t.save.isNone

/-- Script-tag loop body of main1.py / main4.py `extract_api_data`. -/
def scriptStep1 (t : Toks1) (content : List Char) : Toks1 :=
  { calendar := blockAssign [patG "CalendarStoreRequest"] t.calendar content
    update := blockAssign [patG "PluginReminders_UpdateReminderForJobActivity"]
      t.update content
    save := blockAssign [patG "PluginReminders_SaveRecurringJobSchedule"]
      t.save content }

/-- The `if (window[prop].includes(NAME)) { authMatch = ...; if (authMatch)
assign }` step: overwrites unconditionally on a successful inner match. -/
def winAssign (cur : Option String) (cond : Bool) (prop : List Char) :
    Option String :=
  if cond then
    match firstAuthTok prop with
    | some t => some (String.mk t)
    | none => cur
  else cur

/-- Window-property loop body of main1.py / main4.py. -/
def windowStep1 (t : Toks1) (prop : List Char) : Toks1 :=
  if containsSub authLit prop then
    { calendar := winAssign t.calendar
        (containsSub "CalendarStoreRequest".data prop) prop
      update := winAssign t.update
        (containsSub "PluginReminders_UpdateReminderForJobActivity".data prop) prop
      save := winAssign t.save
        (containsSub "PluginReminders_SaveRecurringJobSchedule".data prop) prop }
  else t

/-- `extract_api_data` of main1.py / main4.py: scan every inline script block,
then every string-valued window property, and return the token map. -/
def extractTokens1 (scripts props : List String) : Toks1 :=
  (props.map String.data).foldl windowStep1
    ((scripts.map String.data).foldl scriptStep1 ⟨none, none, none⟩)

/-! ### extract_api_data of main.py

main.py adds: four patterns per name (`gi` flags), a `GeneralAuth` bucket
fed by the first script block containing any `s_auth=` token, a window scan
that only fills names not already found, a `FallbackAuth` bucket taken from
the page HTML when the token map is still completely empty, and an
`EndpointAuth` bucket fed by two endpoint patterns over the page HTML. -/

/-- The token map of main.py (`authTokens` JS object). -/
structure ToksM where
  calendar : Option String
  update : Option String
  save : Option String
  general : Option String
  fallback : Option String
  endpointTok : Option String
deriving DecidableEq, Repr

/-- `Object.keys(authTokens).length === 0`. -/
def ToksM.isEmptyMap (t : ToksM) : Bool :=
  t.calendar.isNone && t.update.isNone && t.save.isNone &&
  t.general.isNone && t.fallback.isNone && t.endpointTok.isNone

/-- Matched substrings of the bare `/s_auth=([a-f0-9]+)/g` (each is the
literal followed by its token), as handed to the `forEach`. -/
def authMatchStrs (s : List Char) : List (List Char) :=
  (authToks s).map (fun t => authLit ++ t)

/-- Script-tag loop body of main.py: the three four-pattern groups, then the
general `s_auth` search gated by `!authTokens['GeneralAuth']`. -/
def scriptStepM (t : ToksM) (content : List Char) : ToksM :=
  let gm := authMatchStrs content
  { t with
    calendar := blockAssign calPats t.calendar content
    update := blockAssign updPats t.update content
    save := blockAssign savePats t.save content
    general :=
      if !gm.isEmpty && t.general.isNone then gm.foldl assignTok t.general
      else t.general }

/-- The fill-if-missing window assignment of main.py
(`if (authMatch && !authTokens[NAME])`). -/
def winFill (cur : Option String) (cond : Bool) (prop : List Char) :
    Option String :=
  if cond then
    match firstAuthTok prop, cur with
    | some t, none => some (String.mk t)
    | _, _ => cur
  else cur

/-- Window-property loop body of main.py. -/
def windowStepM (t : ToksM) (prop : List Char) : ToksM :=
  if containsSub authLit prop then
    { t with
      calendar := winFill t.calendar
        (containsSub "CalendarStoreRequest".data prop) prop
      update := winFill t.update
        (containsSub "UpdateReminderForJobActivity".data prop ||
         containsSub "PluginReminders_UpdateReminderForJobActivity".data prop) prop
      save := winFill t.save
        (containsSub "SaveRecurringJobSchedule".data prop ||
         containsSub "PluginReminders_SaveRecurringJobSchedule".data prop) prop }
  else t

/-- Strategies 1 and 2 of main.py (script tags, then window properties). -/
def scanPhaseM (scripts props : List String) : ToksM :=
  (props.map String.data).foldl windowStepM
    ((scripts.map String.data).foldl scriptStepM
      ⟨none, none, none, none, none, none⟩)

/-- Strategy 3 of main.py: if the page HTML has any bare `s_auth=` match and
the token map is still empty, store the first such token as `FallbackAuth`. -/
def fallbackPhaseM (t : ToksM) (html : List Char) : ToksM :=
  let toks := authToks html
  if !toks.isEmpty && t.isEmptyMap then
    { t with fallback := (toks.head?).map String.mk }
  else t

/-! Strategy 4's first endpoint pattern
`https?:\/\/[^'"]+\.servicem8\.com[^'"]+s_auth=([a-f0-9]+)` needs a bespoke
matcher (two greedy classes with backtracking). -/

/-- Positions of a literal inside `s`, in increasing order. -/
def litOccs (lit : List Char) : List Char → List Nat
  | [] => []
  | c :: cs =>
    let tail := (litOccs lit cs).map (· + 1)
    if litPre false lit (c :: cs) then 0 :: tail else tail

/-- Length of the quote-free prefix ( `[^'"]*` reach). -/
def quoteFreeLen (s : List Char) : Nat := (s.takeWhile notQuote).length

/-- Tail `[^'"]+s_auth=([a-f0-9]+)` of the first endpoint pattern, greedy:
largest offset at least one. -/
def p1Tail (rest2 : List Char) : Option Nat :=
  let m2 := quoteFreeLen rest2
  let occs := (authOccs false rest2).filter
    (fun q => decide (1 ≤ q.1) && decide (q.1 ≤ m2))
  (occs.getLast?).map (fun q => q.1 + 7 + q.2.length)

/-- `[^'"]+\.servicem8\.com[^'"]+s_auth=([a-f0-9]+)` after the scheme:
the backtracking tries the farthest `.servicem8.com` first. -/
def p1AfterScheme (rest : List Char) : Option Nat :=
  let m1 := quoteFreeLen rest
  let ks := ((litOccs ".servicem8.com".data rest).filter
    (fun k => decide (1 ≤ k) && decide (k ≤ m1))).reverse
  ks.findSome? (fun k =>
    (p1Tail (rest.drop (k + 14))).map (fun tl => k + 14 + tl))

/-- Anchored match length of the first endpoint pattern (`https?://...`).
When the character after `http` is `s`, backtracking to the s-less
alternative can never succeed, so the branch is exclusive. -/
def p1MatchLen (s : List Char) : Option Nat :=
  if litPre false "http".data s then
    let a := s.drop 4
    match a with
    | [] => none
    | c :: r =>
      if c == Char.ofNat 115 && litPre false "://".data r then
        (p1AfterScheme (r.drop 3)).map (fun tl => 4 + 1 + 3 + tl)
      else if litPre false "://".data a then
        (p1AfterScheme (a.drop 3)).map (fun tl => 4 + 3 + tl)
      else none
  else none

/-- The second endpoint pattern `\/[^'"]*s_auth=([a-f0-9]+)`, an instance of
the common shape. -/
def p2Pat : Pat := ⟨"/".data, notQuote, false, false⟩

/-- Strategy 4 of main.py: both endpoint patterns over the page HTML; each
match sets `EndpointAuth` only while the token map is still empty. -/
def endpointPhaseM (t : ToksM) (html : List Char) : ToksM :=
  (gScan p1MatchLen (html.length + 1) html ++ gMatches p2Pat html).foldl
    (fun acc m =>
      match firstAuthTok m with
      | some tk =>
        if acc.isEmptyMap then { acc with endpointTok := some (String.mk tk) }
        else acc
      | none => acc) t

/-- `extract_api_data` of main.py: the four strategies in order. -/
def extractTokensMain (scripts props : List String) (html : String) : ToksM :=
  endpointPhaseM (fallbackPhaseM (scanPhaseM scripts props) html.data) html.data

/-! ### Cookie header string (identical loop in all three scripts) -/

/-- The cookie-string loop of `extract_api_data`: append `"; "` before every
pair except onto an empty accumulator, then `name=value`. -/
def cookieHeader (cookies : List (String × String)) : String :=
  cookies.foldl
    (fun acc nv => (if acc = "" then acc else acc ++ "; ") ++ nv.1 ++ "=" ++ nv.2)
    ""

/-! ### create_api_response (all three scripts) -/

/-- A JSON object with only string fields, in insertion order. -/
abbrev Rec := List (String × String)

/-- Keys of such a record. -/
def recKeys (r : Rec) : List String := r.map Prod.fst

/-- First value under a key. -/
def recGet (k : String) : Rec → Option String
  | [] => none
  | f :: fs => if f.1 = k then some f.2 else recGet k fs

/-- The CalendarStoreRequest URL template (token appended by the f-string). -/
def calUrl (tok : String) : String :=
  "https://go.servicem8.com/CalendarStoreRequest?s_cv=&s_form_values=query-start-limit-_dc-callback-records-xaction-end-id-strJobUUID&s_auth=" ++ tok

/-- The PluginReminders_UpdateReminderForJobActivity URL template. -/
def updUrl (tok : String) : String :=
  "https://ap-southeast-2.go.servicem8.com/PluginReminders_UpdateReminderForJobActivity?s_form_values=strReminderUUID-strOriginalStartDate-strOriginalEndDate-strOriginalStaffUUID-strNewStartDate-strNewEndDate-strNewStaffUUID-strNewStaffUUIDList-boolModifyAllFollowingRecurrences&s_auth=" ++ tok

/-- The PluginReminders_SaveRecurringJobSchedule URL template. -/
def saveUrl (tok : String) : String :=
  "https://ap-southeast-2.go.servicem8.com/PluginReminders_SaveRecurringJobSchedule?s_form_values=strReminderUUID-strCustomerUUID-strJobTemplateUUID-strAlertMode-strAllocationWindowUUID-strScheduledStartTime-intScheduledDuration-strStaffUUID-strStaffUUIDList-strAlertDescription-strRecurrenceType-strDailyMode-strWeeklyMode-strMonthlyMode-strYearlyMode-intDailyInterval-intWeeklyInterval-intWeeklyWeeksAfterCompletion-arrWeeklyDayNames-intMonthlyDayEveryMonth-intMonthlyDayEveryMonthInterval-strMonthlyMode2WeekType-intMonthlyMode2DayName-intMonthlyMode2MonthInterval-strYearlyMode2WeekType-intYearlyMode1Month-intYearlyMode1Day-intYearlyMode2DayName-intYearlyMode2Month-strPatternStartDate-strPatternEndDateMode-strPatternEndDate-intPatternEndDateOccurrences-boolCancelReminder&s_auth=" ++ tok

/-- `create_api_response` of main4.py: up to three `{url, cookie, s_auth}`
records, appended in the fixed name order. -/
def createApiResponse4 (t : Toks1) (cookie : String) : List Rec :=
  (match t.calendar with
   | some tok => [[("url", calUrl tok), ("cookie", cookie), ("s_auth", tok)]]
   | none => []) ++
  (match t.update with
   | some tok => [[("url", updUrl tok), ("cookie", cookie), ("s_auth", tok)]]
   | none => []) ++
  (match t.save with
   | some tok => [[("url", saveUrl tok), ("cookie", cookie), ("s_auth", tok)]]
   | none => [])

/-- The structured response of main1.py: one cookie plus `{url, s_auth}`
endpoint records. -/
structure Resp1 where
  cookie : String
  endpoints : List Rec
deriving DecidableEq, Repr

/-- `create_api_response` of main1.py. -/
def createApiResponse1 (t : Toks1) (cookie : String) : Resp1 :=
  ⟨cookie,
   (match t.calendar with
    | some tok => [[("url", calUrl tok), ("s_auth", tok)]]
    | none => []) ++
   (match t.update with
    | some tok => [[("url", updUrl tok), ("s_auth", tok)]]
    | none => []) ++
   (match t.save with
    | some tok => [[("url", saveUrl tok), ("s_auth", tok)]]
    | none => [])⟩

/-- `create_api_response` of main.py: the three name records; when none was
produced, fallback records carrying an extra `type` field. -/
def createApiResponseMain (t : ToksM) (cookie : String) : List Rec :=
  let base :=
    (match t.calendar with
     | some tok => [[("url", calUrl tok), ("cookie", cookie), ("s_auth", tok)]]
     | none => []) ++
    (match t.update with
     | some tok => [[("url", updUrl tok), ("cookie", cookie), ("s_auth", tok)]]
     | none => []) ++
    (match t.save with
     | some tok => [[("url", saveUrl tok), ("cookie", cookie), ("s_auth", tok)]]
     | none => [])
  if base.isEmpty then
    (match t.general with
     | some tok =>
       [[("url", calUrl tok), ("cookie", cookie), ("s_auth", tok),
         ("type", "fallback_calendar")]]
     | none => []) ++
    (match t.fallback with
     | some tok =>
       [[("url", calUrl tok), ("cookie", cookie), ("s_auth", tok),
         ("type", "fallback_general")]]
     | none => []) ++
    (match t.endpointTok with
     | some tok =>
       [[("url", calUrl tok), ("cookie", cookie), ("s_auth", tok),
         ("type", "fallback_endpoint")]]
     | none => [])
  else base

/-! ### The JSON written to result.json by each entry point -/

/-- A small JSON value type, enough for the writers and the webhook payload. -/
inductive J
  | jnull
  | jarr (xs : List J)
  | jobj (fields : List (String × J))
  | jstr (s : String)
  | jnum (n : Nat)

/-- A string-field record as JSON. -/
def recJ (r : Rec) : J := J.jobj (r.map (fun f => (f.1, J.jstr f.2)))

/-- main.py entry point: `None` and empty results are both replaced by an
empty array before `json.dump`. -/
def writeResultMain (result : Option (List Rec)) : J :=
  match result with
  | none => J.jarr []
  | some [] => J.jarr []
  | some xs => J.jarr (xs.map recJ)

/-- main4.py entry point: `json.dump(result, ...)` of the raw value. -/
def writeResult4 (result : Option (List Rec)) : J :=
  match result with
  | none => J.jnull
  | some xs => J.jarr (xs.map recJ)

/-- main1.py's structured response as JSON. -/
def resp1J (r : Resp1) : J :=
  J.jobj [("cookie", J.jstr r.cookie),
          ("api_endpoints", J.jarr (r.endpoints.map recJ))]

/-- main1.py entry point: `json.dump(result, ...)` of the raw value. -/
def writeResult1 (result : Option Resp1) : J :=
  match result with
  | none => J.jnull
  | some r => resp1J r

/-! ### Webhook delivery -/

/-- main4.py `main`: the webhook is only called on a truthy result, and its
outcome is judged by `response.status_code == 200`; `none` means no POST. -/
def webhookSend4 (result : Option (List Rec)) (status : Nat) : Option Bool :=
  match result with
  | some xs => if xs.isEmpty then none else some (status == 200)
  | none => none

/-- webhook_test.py: the fixed webhook URL. -/
def webhookTestUrl : String :=
  "https://n8n.ppmproclean.com.au/webhook/a1877d41-a4a5-47ce-95af-c5134863b1f1"

/-- webhook_test.py: payload wrapping the loaded data with a timestamp and
the endpoint count. -/
def webhookTestPayload (apiData : List J) (timestamp : String) : J :=
  J.jobj [("servicem8_data", J.jarr apiData),
          ("timestamp", J.jstr timestamp),
          ("total_endpoints", J.jnum apiData.length)]

/-- webhook_test.py: success (no `exit(1)`) exactly on status code 200. -/
def webhookTestJudge (status : Nat) : Bool := status == 200

/-! ### Device fingerprint (main1.py `load_device_fingerprint`) -/

/-- The parsed fingerprint JSON: only the `timestamp` field matters to the
freshness check (`.get('timestamp', 0)`); the remaining attributes are
uninterpreted payload. -/
structure Fingerprint where
  timestamp : Option ℚ
  payload : List (String × String)
deriving DecidableEq

/-- The 30-day window `30 * 24 * 60 * 60` of main1.py. -/
def fpWindow : ℚ := 30 * 24 * 60 * 60

/-- `load_device_fingerprint`: `None` when the file is absent, when reading
or parsing raises (modelled as `content = none`), or when the stored
timestamp (0 when missing) is more than 30 days before `now`; otherwise the
parsed record. -/
def loadDeviceFingerprint (fileExists : Bool) (content : Option Fingerprint)
    (now : ℚ) : Option Fingerprint :=
  if !fileExists then none
  else
    match content with
    | none => none
    | some fp =>
      if now - fp.timestamp.getD 0 > fpWindow then none else some fp

/-! ### Cookie jar restore (main4.py `load_cookies`) -/

/-- A stored cookie: `domain` is `none` when the JSON record has no domain
key, and the `expiry` field is carried so that stripping it is visible. -/
structure Cookie where
  name : String
  value : String
  domain : Option String
  expiry : Option ℚ
deriving DecidableEq

/-- What is handed to `driver.add_cookie`: the copy without its `expiry`
field and with the domain variant under trial (`none` = no domain key). -/
structure CookieAttempt where
  name : String
  value : String
  domain : Option String
deriving DecidableEq

/-- Build the attempt for one domain variant (the `expiry` key has already
been deleted from the copy). -/
def cookieAttempt (c : Cookie) (d : Option String) : CookieAttempt :=
  ⟨c.name, c.value, d⟩

/-- The succession of domain variants main4.py actually tries, read off the
nested `try`/`continue` blocks: original domain; without a leading dot;
`go.servicem8.com` when the original contains `servicem8.com`;
`servicem8.com` when the original contains `go.servicem8.com`; and, when the
copy still has a domain key (i.e. the original had one), no domain at all. -/
def sourceVariants (c : Cookie) : List (Option String) :=
  let d0 := c.domain.getD ""
  [c.domain] ++
  (if d0.startsWith "." then [some (d0.drop 1)] else []) ++
  (if containsSub "servicem8.com".data d0.data then
    [some "go.servicem8.com"] else []) ++
  (if containsSub "go.servicem8.com".data d0.data then
    [some "servicem8.com"] else []) ++
  (if c.domain.isSome then [none] else [])

/-- Sequential trial with short-circuit: each `add_cookie` failure falls
through to the next variant, each success `continue`s to the next cookie. -/
def tryVariants (accepts : CookieAttempt → Bool) (c : Cookie) :
    List (Option String) → Bool
  | [] => false
  | v :: vs => accepts (cookieAttempt c v) || tryVariants accepts c vs

/-- The variants actually submitted to the browser, in order: every rejected
one, then the first accepted one (if any). -/
def triedVariants (accepts : CookieAttempt → Bool) (c : Cookie) :
    List (Option String) → List (Option String)
  | [] => []
  | v :: vs =>
    if accepts (cookieAttempt c v) then [v]
    else v :: triedVariants accepts c vs

/-- `load_cookies` over an already-parsed jar: count the cookies for which
some variant was accepted, and report `successful_cookies > 0`. -/
def loadCookies (accepts : CookieAttempt → Bool) (jar : List Cookie) : Bool :=
  decide (0 < jar.countP (fun c => tryVariants accepts c (sourceVariants c)))

/-! ### Retry loops over per-attempt outcomes

Each stage loop is embedded as a function of the number of remaining
attempts and the list of outcomes the environment would produce, one
constructor per observable result of an attempt body. -/

/-- `"login" not in current_url.lower() and "servicem8.com" in current_url`. -/
def urlLoginOk (url : String) : Bool :=
  !(containsSub "login".data (url.data.map Char.toLower)) &&
  containsSub "servicem8.com".data url.data

/-- `"job_dispatch" in current_url or "dispatch" in current_url.lower()`. -/
def urlDispatchOk (url : String) : Bool :=
  containsSub "job_dispatch".data url.data ||
  containsSub "dispatch".data (url.data.map Char.toLower)

/-- `current_url and not current_url.startswith("data:")`. -/
def urlLoadOk (url : String) : Bool :=
  !(url = "") && !(litPre false "data:".data url.data)

/-- One login attempt of main.py / main4.py: the site load failed, the
attempt raised (timeout, missing element, other), or the form was submitted
and the browser then reported `url`. -/
inductive LoginStep
  | exn
  | loadFail
  | submitted (url : String)
deriving DecidableEq

/-- The login retry loop of main.py / main4.py (identical control flow):
success exactly on an attempt whose post-submission URL passes the check;
every other attempt sleeps and retries, the last one returns `False`. -/
def loginRetry : Nat → List LoginStep → Bool
  | 0, _ => false
  | _ + 1, [] => false
  | n + 1, s :: rest =>
    match s with
    | .submitted url =>
      if urlLoginOk url then true
      else if n == 0 then false else loginRetry n rest
    | _ => if n == 0 then false else loginRetry n rest

/-- One login attempt of main1.py: as above, but the 2FA handler runs
between submission and the URL check and its verdict gates the check. -/
inductive Login1Step
  | exn
  | loadFail
  | submitted (twofaOk : Bool) (url : String)
deriving DecidableEq

/-- The login retry loop of main1.py. -/
def login1Retry : Nat → List Login1Step → Bool
  | 0, _ => false
  | _ + 1, [] => false
  | n + 1, s :: rest =>
    match s with
    | .submitted tfa url =>
      if !tfa then (if n == 0 then false else login1Retry n rest)
      else if urlLoginOk url then true
      else if n == 0 then false else login1Retry n rest
    | _ => if n == 0 then false else login1Retry n rest

/-- One navigation attempt of main4.py: an exception somewhere in the body,
or the dispatch link was clicked and the browser then reported `url`. -/
inductive NavStep
  | exn
  | clicked (url : String)
deriving DecidableEq

/-- The navigation retry loop of main4.py: on a clicked attempt whose URL
fails the check, a non-final attempt retries but the FINAL one returns
`True` (“Still return True as we may have reached the page”). -/
def navigate4Retry : Nat → List NavStep → Bool
  | 0, _ => false
  | _ + 1, [] => false
  | n + 1, s :: rest =>
    match s with
    | .clicked url =>
      if urlDispatchOk url then true
      else if n == 0 then true else navigate4Retry n rest
    | .exn => if n == 0 then false else navigate4Retry n rest

/-- One navigation attempt of main1.py: an exception; no dispatch link found
and the direct-URL fallback either raised (`none`) or reported `url`; or the
link was clicked and the browser reported `url`. -/
inductive Nav1Step
  | exn
  | noLink (direct : Option String)
  | clicked (url : String)
deriving DecidableEq

/-- The navigation retry loop of main1.py: the clicked/URL-failed FINAL
attempt returns `True`; the no-link path falls through to failure. -/
def navigate1Retry : Nat → List Nav1Step → Bool
  | 0, _ => false
  | _ + 1, [] => false
  | n + 1, s :: rest =>
    match s with
    | .clicked url =>
      if urlDispatchOk url then true
      else if n == 0 then true else navigate1Retry n rest
    | .noLink (some url) =>
      if urlDispatchOk url then true
      else if n == 0 then false else navigate1Retry n rest
    | .noLink none => if n == 0 then false else navigate1Retry n rest
    | .exn => if n == 0 then false else navigate1Retry n rest

/-- One `setup_chrome` attempt: whether Chrome came up. -/
def setupChromeRetry : Nat → List Bool → Bool
  | 0, _ => false
  | _ + 1, [] => false
  | n + 1, b :: rest =>
    if b then true else if n == 0 then false else setupChromeRetry n rest

/-- One `load_website_with_retry` attempt: a timeout/other exception, or the
page loaded and the browser reported `url`. -/
inductive LoadStep
  | exn
  | loaded (url : String)
deriving DecidableEq

/-- The website-loading retry loop (main.py / main4.py). -/
def loadSiteRetry : Nat → List LoadStep → Bool
  | 0, _ => false
  | _ + 1, [] => false
  | n + 1, s :: rest =>
    match s with
    | .loaded url =>
      if urlLoadOk url then true
      else if n == 0 then false else loadSiteRetry n rest
    | .exn => if n == 0 then false else loadSiteRetry n rest

/-- One `extract_with_retry` attempt: an exception, or `extract_api_data`
returned a token map and cookie string. -/
inductive ExtractStep
  | exn
  | got (t : Toks1) (cookie : String)
deriving DecidableEq

/-- `extract_with_retry` (identical in all three scripts, over main1/main4's
token map): retries while the map is empty and returns `({}, "")` after the
final attempt. -/
def extractRetry : Nat → List ExtractStep → Toks1 × String
  | 0, _ => (⟨none, none, none⟩, "")
  | _ + 1, [] => (⟨none, none, none⟩, "")
  | n + 1, s :: rest =>
    match s with
    | .got t ck =>
      if t.isEmptyMap then
        (if n == 0 then (⟨none, none, none⟩, "") else extractRetry n rest)
      else (t, ck)
    | .exn => if n == 0 then (⟨none, none, none⟩, "") else extractRetry n rest

/-! ### Claim-side definitions (written from the spec's words, for the
refinement claims) -/

/-- Tokens contributed by one script block for a pattern group: every match,
in order, mapped through the inner `s_auth` extraction. -/
def blockToks (pats : List Pat) (content : List Char) : List String :=
  ((pats.map (fun p => gMatches p content)).flatten).filterMap
    (fun m => (firstAuthTok m).map String.mk)

/-- Token contributed by one window property for a name gate (the
`includes('s_auth=')` guard, the name guard, then the inner extraction). -/
def winTokG (gate : List Char → Bool) (prop : List Char) : Option String :=
  if containsSub authLit prop && gate prop then
    (firstAuthTok prop).map String.mk
  else none

/-- Modelled from the claim of C1: the FIRST match for a name — first
matching script block, first occurrence within it. -/
def claimFirstToken (pats : List Pat) (scripts : List String) : Option String :=
  (((scripts.map String.data).map (blockToks pats)).flatten).head?

/-- Modelled from the claim of C6: the domain variants in the stated order —
original; without the leading dot (only if present); `go.servicem8.com`
(only if the original contains `servicem8.com`); `servicem8.com` (only if
the original contains `go.servicem8.com`); no domain field at all. -/
def claimVariants (c : Cookie) : List (Option String) :=
  [c.domain] ++
  (if (c.domain.getD "").startsWith "." then
    [some ((c.domain.getD "").drop 1)] else []) ++
  (if containsSub "servicem8.com".data (c.domain.getD "").data then
    [some "go.servicem8.com"] else []) ++
  (if containsSub "go.servicem8.com".data (c.domain.getD "").data then
    [some "servicem8.com"] else []) ++
  [none]

/-- Modelled from the claim of C10: the cookies rendered as `name=value`
joined by `"; "`, no leading or trailing separator. -/
def claimCookieJoin : List (String × String) → String
  | [] => ""
  | [nv] => nv.1 ++ "=" ++ nv.2
  | nv :: rest => nv.1 ++ "=" ++ nv.2 ++ "; " ++ claimCookieJoin rest

/-! ### Gates and last/first token views used by the characterisations -/

/-- Window gate for `CalendarStoreRequest` (same test in all versions). -/
def gateCal (p : List Char) : Bool := containsSub "CalendarStoreRequest".data p

/-- Window gate for the update name in main1/main4 (prefixed form only). -/
def gateUpd1 (p : List Char) : Bool :=
  containsSub "PluginReminders_UpdateReminderForJobActivity".data p

/-- Window gate for the save name in main1/main4. -/
def gateSave1 (p : List Char) : Bool :=
  containsSub "PluginReminders_SaveRecurringJobSchedule".data p

/-- Window gate for the update name in main.py (either form). -/
def gateUpdM (p : List Char) : Bool :=
  containsSub "UpdateReminderForJobActivity".data p ||
  containsSub "PluginReminders_UpdateReminderForJobActivity".data p

/-- Window gate for the save name in main.py. -/
def gateSaveM (p : List Char) : Bool :=
  containsSub "SaveRecurringJobSchedule".data p ||
  containsSub "PluginReminders_SaveRecurringJobSchedule".data p

/-- Token of the LAST script-block match for a pattern group (last matching
block, last occurrence within it). -/
def scriptsLastTok (pats : List Pat) (scripts : List String) : Option String :=
  (((scripts.map String.data).map (blockToks pats)).flatten).getLast?

/-- Token of the last matching window property for a gate. -/
def windowLastTok (gate : List Char → Bool) (props : List String) : Option String :=
  ((props.map String.data).filterMap (winTokG gate)).getLast?

/-- Token of the first matching window property for a gate. -/
def windowFirstTok (gate : List Char → Bool) (props : List String) : Option String :=
  ((props.map String.data).filterMap (winTokG gate)).head?

/-! ### Helper lemmas: `Option.or` and last/first folds -/

theorem getLast?_cons_or (x : α) (l : List α) :
    (x :: l).getLast? = l.getLast?.or (some x) := by
  induction l with
  | nil => rfl
  | cons y ys _ =>
    rw [List.getLast?_cons_cons]
    rcases h : (y :: ys).getLast? with _ | z
    · exact absurd h (by simp)
    · rfl

/-- The `forEach` assignment fold keeps the LAST successfully extracted
token, falling back to the incoming value. -/
theorem foldl_assignTok (ms : List (List Char)) (cur : Option String) :
    ms.foldl assignTok cur =
      ((ms.filterMap (fun m => (firstAuthTok m).map String.mk)).getLast?).or
        cur := by
  induction ms generalizing cur with
  | nil => rfl
  | cons m ms ih =>
    rw [List.foldl_cons, ih]
    rcases h : firstAuthTok m with _ | t
    · simp [assignTok, h]
    · have hfm : (m :: ms).filterMap (fun m => (firstAuthTok m).map String.mk) =
          String.mk t :: ms.filterMap (fun m => (firstAuthTok m).map String.mk) := by
        simp [h]
      have ha : assignTok cur m = some (String.mk t) := by
        simp [assignTok, h]
      rw [ha, hfm, getLast?_cons_or, Option.or_assoc, Option.or_some]

/-- `blockAssign` in last-token form. -/
theorem blockAssign_eq (pats : List Pat) (cur : Option String)
    (content : List Char) :
    blockAssign pats cur content =
      ((blockToks pats content).getLast?).or cur := by
  unfold blockAssign blockToks
  exact foldl_assignTok _ cur

/-- Generic last-token fold over a list of items, each contributing an
ordered token list, with later assignments overwriting earlier ones. -/
theorem foldl_field_last {σ α : Type} (step : σ → α → σ) (fld : σ → Option String)
    (tokf : α → List String)
    (h : ∀ t c, fld (step t c) = ((tokf c).getLast?).or (fld t))
    (l : List α) (t0 : σ) :
    fld (l.foldl step t0) = (((l.map tokf).flatten).getLast?).or (fld t0) := by
  induction l generalizing t0 with
  | nil => simp
  | cons c cs ih =>
    rw [List.foldl_cons, ih, h, List.map_cons, List.flatten_cons,
      List.getLast?_append, Option.or_assoc]

/-- Generic first-token fold: each item contributes at most one token, and
only the first one fills the (initially absent) value. -/
theorem foldl_field_first {σ α : Type} (step : σ → α → σ) (fld : σ → Option String)
    (tokf : α → Option String)
    (h : ∀ t c, fld (step t c) = (fld t).or (tokf c))
    (l : List α) (t0 : σ) :
    fld (l.foldl step t0) = (fld t0).or ((l.filterMap tokf).head?) := by
  induction l generalizing t0 with
  | nil => simp
  | cons c cs ih =>
    rw [List.foldl_cons, ih, h, Option.or_assoc]
    rcases hc : tokf c with _ | t
    · simp [List.filterMap_cons, hc]
    · simp [List.filterMap_cons, hc]

/-- Generic single-token overwrite fold (the window loop of main1/main4). -/
theorem foldl_field_lastOpt {σ α : Type} (step : σ → α → σ)
    (fld : σ → Option String) (tokf : α → Option String)
    (h : ∀ t c, fld (step t c) = (tokf c).or (fld t))
    (l : List α) (t0 : σ) :
    fld (l.foldl step t0) = ((l.filterMap tokf).getLast?).or (fld t0) := by
  have hflat : ∀ m : List α,
      ((m.map (fun c => (tokf c).toList)).flatten) = m.filterMap tokf := by
    intro m
    induction m with
    | nil => rfl
    | cons c cs ih =>
      rcases hc : tokf c with _ | t <;>
        simp [List.filterMap_cons, hc, ih]
  have hstep : ∀ t c, fld (step t c) = (((fun c => (tokf c).toList) c).getLast?).or (fld t) := by
    intro t c
    rw [h]
    rcases hc : tokf c with _ | t2 <;> simp [hc]
  have := foldl_field_last step fld (fun c => (tokf c).toList) hstep l t0
  rw [this, hflat]

/-! ### Characterising the extraction folds -/

theorem winAssign_eq (cur : Option String) (cond : Bool) (p : List Char) :
    winAssign cur cond p =
      (if cond then (firstAuthTok p).map String.mk else none).or cur := by
  cases cond <;> rcases h : firstAuthTok p with _ | t <;> simp [winAssign, h]

theorem winFill_eq (cur : Option String) (cond : Bool) (p : List Char) :
    winFill cur cond p =
      cur.or (if cond then (firstAuthTok p).map String.mk else none) := by
  cases cond <;> rcases h : firstAuthTok p with _ | t <;>
    rcases cur with _ | c <;> simp [winFill, h]

theorem windowStep1_calendar (t : Toks1) (p : List Char) :
    (windowStep1 t p).calendar = (winTokG gateCal p).or t.calendar := by
  cases ha : containsSub authLit p <;>
    simp [windowStep1, ha, winAssign_eq, winTokG, gateCal]

theorem windowStep1_update (t : Toks1) (p : List Char) :
    (windowStep1 t p).update = (winTokG gateUpd1 p).or t.update := by
  cases ha : containsSub authLit p <;>
    simp [windowStep1, ha, winAssign_eq, winTokG, gateUpd1]

theorem windowStep1_save (t : Toks1) (p : List Char) :
    (windowStep1 t p).save = (winTokG gateSave1 p).or t.save := by
  cases ha : containsSub authLit p <;>
    simp [windowStep1, ha, winAssign_eq, winTokG, gateSave1]

theorem windowStepM_calendar (t : ToksM) (p : List Char) :
    (windowStepM t p).calendar = (t.calendar).or (winTokG gateCal p) := by
  cases ha : containsSub authLit p <;>
    simp [windowStepM, ha, winFill_eq, winTokG, gateCal]

theorem windowStepM_update (t : ToksM) (p : List Char) :
    (windowStepM t p).update = (t.update).or (winTokG gateUpdM p) := by
  cases ha : containsSub authLit p <;>
    simp [windowStepM, ha, winFill_eq, winTokG, gateUpdM]

theorem windowStepM_save (t : ToksM) (p : List Char) :
    (windowStepM t p).save = (t.save).or (winTokG gateSaveM p) := by
  cases ha : containsSub authLit p <;>
    simp [windowStepM, ha, winFill_eq, winTokG, gateSaveM]

theorem extract1_calendar (scripts props : List String) :
    (extractTokens1 scripts props).calendar =
      (windowLastTok gateCal props).or
        (scriptsLastTok [patG "CalendarStoreRequest"] scripts) := by
  unfold extractTokens1 windowLastTok scriptsLastTok
  rw [foldl_field_lastOpt windowStep1 Toks1.calendar (winTokG gateCal)
    windowStep1_calendar]
  rw [foldl_field_last scriptStep1 Toks1.calendar
    (blockToks [patG "CalendarStoreRequest"])
    (fun t c => blockAssign_eq [patG "CalendarStoreRequest"] t.calendar c)]
  simp

theorem extract1_update (scripts props : List String) :
    (extractTokens1 scripts props).update =
      (windowLastTok gateUpd1 props).or
        (scriptsLastTok [patG "PluginReminders_UpdateReminderForJobActivity"]
          scripts) := by
  unfold extractTokens1 windowLastTok scriptsLastTok
  rw [foldl_field_lastOpt windowStep1 Toks1.update (winTokG gateUpd1)
    windowStep1_update]
  rw [foldl_field_last scriptStep1 Toks1.update
    (blockToks [patG "PluginReminders_UpdateReminderForJobActivity"])
    (fun t c => blockAssign_eq _ t.update c)]
  simp

theorem extract1_save (scripts props : List String) :
    (extractTokens1 scripts props).save =
      (windowLastTok gateSave1 props).or
        (scriptsLastTok [patG "PluginReminders_SaveRecurringJobSchedule"]
          scripts) := by
  unfold extractTokens1 windowLastTok scriptsLastTok
  rw [foldl_field_lastOpt windowStep1 Toks1.save (winTokG gateSave1)
    windowStep1_save]
  rw [foldl_field_last scriptStep1 Toks1.save
    (blockToks [patG "PluginReminders_SaveRecurringJobSchedule"])
    (fun t c => blockAssign_eq _ t.save c)]
  simp

theorem scanM_calendar (scripts props : List String) :
    (scanPhaseM scripts props).calendar =
      (scriptsLastTok calPats scripts).or (windowFirstTok gateCal props) := by
  unfold scanPhaseM windowFirstTok scriptsLastTok
  rw [foldl_field_first windowStepM ToksM.calendar (winTokG gateCal)
    windowStepM_calendar]
  rw [foldl_field_last scriptStepM ToksM.calendar (blockToks calPats)
    (fun t c => blockAssign_eq calPats t.calendar c)]
  simp

theorem scanM_update (scripts props : List String) :
    (scanPhaseM scripts props).update =
      (scriptsLastTok updPats scripts).or (windowFirstTok gateUpdM props) := by
  unfold scanPhaseM windowFirstTok scriptsLastTok
  rw [foldl_field_first windowStepM ToksM.update (winTokG gateUpdM)
    windowStepM_update]
  rw [foldl_field_last scriptStepM ToksM.update (blockToks updPats)
    (fun t c => blockAssign_eq updPats t.update c)]
  simp

theorem scanM_save (scripts props : List String) :
    (scanPhaseM scripts props).save =
      (scriptsLastTok savePats scripts).or (windowFirstTok gateSaveM props) := by
  unfold scanPhaseM windowFirstTok scriptsLastTok
  rw [foldl_field_first windowStepM ToksM.save (winTokG gateSaveM)
    windowStepM_save]
  rw [foldl_field_last scriptStepM ToksM.save (blockToks savePats)
    (fun t c => blockAssign_eq savePats t.save c)]
  simp

/-- A fold whose step leaves a projection unchanged leaves it unchanged. -/
theorem foldl_preserve {σ α β : Type} (step : σ → α → σ) (fld : σ → β)
    (h : ∀ t c, fld (step t c) = fld t) (l : List α) (t0 : σ) :
    fld (l.foldl step t0) = fld t0 := by
  induction l generalizing t0 with
  | nil => rfl
  | cons c cs ih => rw [List.foldl_cons, ih, h]

/-- Strategy 4 never touches the `FallbackAuth` entry. -/
theorem endpointPhaseM_fallback (t : ToksM) (html : List Char) :
    (endpointPhaseM t html).fallback = t.fallback := by
  unfold endpointPhaseM
  apply foldl_preserve
  intro t c
  rcases h : firstAuthTok c with _ | tk
  · simp [h]
  · simp only [h]
    split <;> rfl

/-- Strategies 1 and 2 never touch the `FallbackAuth` entry. -/
theorem scanPhaseM_fallback (scripts props : List String) :
    (scanPhaseM scripts props).fallback = none := by
  unfold scanPhaseM
  rw [foldl_preserve windowStepM ToksM.fallback (fun t p => by
    cases ha : containsSub authLit p <;> simp [windowStepM, ha])]
  rw [foldl_preserve scriptStepM ToksM.fallback (fun t c => by
    simp [scriptStepM])]

/-! ### Claim C1 -/

/-- Claim C1, counterexample: on a page with one script block holding two
`CalendarStoreRequest ... s_auth=<hex>` occurrences (tokens `aa` then `bb`),
the extraction of main1/main4 records the SECOND token `bb`, not the first
match `aa` the claim asserts. -/
theorem C1_counterexample :
    (extractTokens1
      ["\"CalendarStoreRequest?s_auth=aa\"\"CalendarStoreRequest?s_auth=bb\""]
      []).calendar = some "bb" ∧
    claimFirstToken [patG "CalendarStoreRequest"]
      ["\"CalendarStoreRequest?s_auth=aa\"\"CalendarStoreRequest?s_auth=bb\""]
      = some "aa" ∧
    (extractTokens1
      ["\"CalendarStoreRequest?s_auth=aa\"\"CalendarStoreRequest?s_auth=bb\""]
      []).calendar ≠
    claimFirstToken [patG "CalendarStoreRequest"]
      ["\"CalendarStoreRequest?s_auth=aa\"\"CalendarStoreRequest?s_auth=bb\""] := by
  refine ⟨by decide, by decide, by decide⟩

/-- Claim C1, amended: for each RPC name the recorded token is the LAST
match encountered, not the first — in main1/main4 the last occurrence of the
last matching script block, overridden by the last matching window variable;
in main.py likewise the last script occurrence, with window variables only
filling a name not already found (so the first matching window variable). -/
theorem C1_amended (scripts props : List String) :
    ((extractTokens1 scripts props).calendar =
      (windowLastTok gateCal props).or
        (scriptsLastTok [patG "CalendarStoreRequest"] scripts)) ∧
    ((extractTokens1 scripts props).update =
      (windowLastTok gateUpd1 props).or
        (scriptsLastTok [patG "PluginReminders_UpdateReminderForJobActivity"]
          scripts)) ∧
    ((extractTokens1 scripts props).save =
      (windowLastTok gateSave1 props).or
        (scriptsLastTok [patG "PluginReminders_SaveRecurringJobSchedule"]
          scripts)) ∧
    ((scanPhaseM scripts props).calendar =
      (scriptsLastTok calPats scripts).or (windowFirstTok gateCal props)) ∧
    ((scanPhaseM scripts props).update =
      (scriptsLastTok updPats scripts).or (windowFirstTok gateUpdM props)) ∧
    ((scanPhaseM scripts props).save =
      (scriptsLastTok savePats scripts).or (windowFirstTok gateSaveM props)) :=
  ⟨extract1_calendar scripts props, extract1_update scripts props,
   extract1_save scripts props, scanM_calendar scripts props,
   scanM_update scripts props, scanM_save scripts props⟩

/-! ### Claim C2 -/

/-- Claim C2, counterexample: none of the three RPC names occurs in the
script block nor anywhere in the page HTML, the page HTML does contain a
bare `s_auth=<hex>` occurrence (`cd`), yet main.py adds NO fallback bucket,
because the script-block `s_auth=ab` already fed the `GeneralAuth` bucket
(and main1/main4 have no fallback at all). -/
theorem C2_counterexample :
    containsSub "CalendarStoreRequest".data "xs_auth=ab".data = false ∧
    containsSub "UpdateReminderForJobActivity".data "xs_auth=ab".data = false ∧
    containsSub "SaveRecurringJobSchedule".data "xs_auth=ab".data = false ∧
    containsSub "CalendarStoreRequest".data "/q?s_auth=cd xs_auth=ab".data
      = false ∧
    containsSub "UpdateReminderForJobActivity".data
      "/q?s_auth=cd xs_auth=ab".data = false ∧
    containsSub "SaveRecurringJobSchedule".data
      "/q?s_auth=cd xs_auth=ab".data = false ∧
    authToks "/q?s_auth=cd xs_auth=ab".data ≠ [] ∧
    (extractTokensMain ["xs_auth=ab"] [] "/q?s_auth=cd xs_auth=ab").fallback
      = none := by
  refine ⟨by decide, by decide, by decide, by decide, by decide, by decide,
    by decide, by decide⟩

/-- Claim C2, amended: only main.py has a fallback, and its `FallbackAuth`
bucket is set (to the first bare `s_auth=<hex>` token of the page HTML)
exactly when the page HTML has such an occurrence AND the token map is still
completely empty after the script and window scans — in particular any
script-block `s_auth` occurrence (which feeds `GeneralAuth`) suppresses it,
not only the three RPC names. -/
theorem C2_amended (scripts props : List String) (html : String) :
    (extractTokensMain scripts props html).fallback =
      (if !(authToks html.data).isEmpty && (scanPhaseM scripts props).isEmptyMap
       then ((authToks html.data).head?).map String.mk
       else none) := by
  unfold extractTokensMain
  rw [endpointPhaseM_fallback]
  unfold fallbackPhaseM
  cases hc : (!(authToks html.data).isEmpty &&
      (scanPhaseM scripts props).isEmptyMap) with
  | false => simp [hc, scanPhaseM_fallback]
  | true => simp [hc]

/-! ### Retry-loop lemmas for Claim C3 -/

/-- Login exhausts all attempts without a URL success: failure sentinel. -/
theorem loginRetry_allFail (outs : List LoginStep)
    (h : ∀ o ∈ outs, o = LoginStep.exn ∨ o = LoginStep.loadFail ∨
      ∃ u, o = LoginStep.submitted u ∧ urlLoginOk u = false) :
    ∀ n, loginRetry n outs = false := by
  induction outs with
  | nil => intro n; cases n <;> rfl
  | cons s rest ih =>
    intro n
    cases n with
    | zero => rfl
    | succ n =>
      have hrest := ih (fun o ho => h o (List.mem_cons_of_mem _ ho))
      rcases h s (List.mem_cons_self _ _) with hs | hs | ⟨u, hu, hbad⟩
      · subst hs
        show (if n == 0 then false else loginRetry n rest) = false
        cases hn : n == 0 <;> simp [hrest n]
      · subst hs
        show (if n == 0 then false else loginRetry n rest) = false
        cases hn : n == 0 <;> simp [hrest n]
      · subst hu
        show (if urlLoginOk u then true
          else if n == 0 then false else loginRetry n rest) = false
        rw [hbad]
        cases hn : n == 0 <;> simp [hrest n]

/-- Chrome setup exhausts all attempts: failure sentinel. -/
theorem setupChrome_allFail (outs : List Bool) (h : ∀ b ∈ outs, b = false) :
    ∀ n, setupChromeRetry n outs = false := by
  induction outs with
  | nil => intro n; cases n <;> rfl
  | cons b rest ih =>
    intro n
    cases n with
    | zero => rfl
    | succ n =>
      have hb := h b (List.mem_cons_self _ _)
      have hrest := ih (fun o ho => h o (List.mem_cons_of_mem _ ho))
      subst hb
      show (if false then true else if n == 0 then false
        else setupChromeRetry n rest) = false
      cases hn : n == 0 <;> simp [hrest n]

/-- Website loading exhausts all attempts: failure sentinel. -/
theorem loadSite_allFail (outs : List LoadStep)
    (h : ∀ o ∈ outs, o = LoadStep.exn ∨
      ∃ u, o = LoadStep.loaded u ∧ urlLoadOk u = false) :
    ∀ n, loadSiteRetry n outs = false := by
  induction outs with
  | nil => intro n; cases n <;> rfl
  | cons s rest ih =>
    intro n
    cases n with
    | zero => rfl
    | succ n =>
      have hrest := ih (fun o ho => h o (List.mem_cons_of_mem _ ho))
      rcases h s (List.mem_cons_self _ _) with hs | ⟨u, hu, hbad⟩
      · subst hs
        show (if n == 0 then false else loadSiteRetry n rest) = false
        cases hn : n == 0 <;> simp [hrest n]
      · subst hu
        show (if urlLoadOk u then true
          else if n == 0 then false else loadSiteRetry n rest) = false
        rw [hbad]
        cases hn : n == 0 <;> simp [hrest n]

/-- Token extraction exhausts all attempts (only exceptions and empty maps):
the `({}, "")` sentinel. -/
theorem extractRetry_allFail (outs : List ExtractStep)
    (h : ∀ o ∈ outs, o = ExtractStep.exn ∨
      ∃ t c, o = ExtractStep.got t c ∧ t.isEmptyMap = true) :
    ∀ n, extractRetry n outs = (⟨none, none, none⟩, "") := by
  induction outs with
  | nil => intro n; cases n <;> rfl
  | cons s rest ih =>
    intro n
    cases n with
    | zero => rfl
    | succ n =>
      have hrest := ih (fun o ho => h o (List.mem_cons_of_mem _ ho))
      rcases h s (List.mem_cons_self _ _) with hs | ⟨t, c, hs, hempty⟩
      · subst hs
        show (if n == 0 then ((⟨none, none, none⟩ : Toks1), "")
          else extractRetry n rest) = _
        cases hn : n == 0 <;> simp [hrest n]
      · subst hs
        show (if t.isEmptyMap then
            (if n == 0 then ((⟨none, none, none⟩ : Toks1), "")
             else extractRetry n rest)
          else (t, c)) = _
        rw [hempty]
        cases hn : n == 0 <;> simp [hrest n]

/-- When the final navigation attempt completes the click flow, main4.py's
loop reports success regardless of the URL check. -/
theorem navigate4_lastClicked (outs : List NavStep) :
    ∀ n u, outs.getLast? = some (NavStep.clicked u) →
      outs.length = n → navigate4Retry n outs = true := by
  induction outs with
  | nil => intro n u hlast _; exact absurd hlast (by simp)
  | cons s rest ih =>
    intro n u hlast hlen
    subst hlen
    rcases rest with _ | ⟨r, rs⟩
    · have hs : s = NavStep.clicked u := by
        simpa using hlast
      subst hs
      show (if urlDispatchOk u then true else if 0 == 0 then true
        else navigate4Retry 0 []) = true
      cases urlDispatchOk u <;> rfl
    · have hlast2 : (r :: rs).getLast? = some (NavStep.clicked u) := by
        rw [List.getLast?_cons_cons] at hlast
        exact hlast
      have hrec := ih (rs.length + 1) u hlast2 (by simp)
      cases s with
      | clicked v =>
        show (if urlDispatchOk v then true
          else if rs.length + 1 == 0 then true
          else navigate4Retry (rs.length + 1) (r :: rs)) = true
        cases urlDispatchOk v <;> simp [hrec]
      | exn =>
        show (if rs.length + 1 == 0 then false
          else navigate4Retry (rs.length + 1) (r :: rs)) = true
        simp [hrec]

/-- When every navigation attempt raises, main4.py's loop fails. -/
theorem navigate4_allExn (outs : List NavStep)
    (h : ∀ o ∈ outs, o = NavStep.exn) :
    ∀ n, navigate4Retry n outs = false := by
  induction outs with
  | nil => intro n; cases n <;> rfl
  | cons s rest ih =>
    intro n
    cases n with
    | zero => rfl
    | succ n =>
      have hs := h s (List.mem_cons_self _ _)
      have hrest := ih (fun o ho => h o (List.mem_cons_of_mem _ ho))
      subst hs
      show (if n == 0 then false else navigate4Retry n rest) = false
      cases hn : n == 0 <;> simp [hrest n]

/-- Same final-attempt success for main1.py's navigation loop. -/
theorem navigate1_lastClicked (outs : List Nav1Step) :
    ∀ n u, outs.getLast? = some (Nav1Step.clicked u) →
      outs.length = n → navigate1Retry n outs = true := by
  induction outs with
  | nil => intro n u hlast _; exact absurd hlast (by simp)
  | cons s rest ih =>
    intro n u hlast hlen
    subst hlen
    rcases rest with _ | ⟨r, rs⟩
    · have hs : s = Nav1Step.clicked u := by
        simpa using hlast
      subst hs
      show (if urlDispatchOk u then true else if 0 == 0 then true
        else navigate1Retry 0 []) = true
      cases urlDispatchOk u <;> rfl
    · have hlast2 : (r :: rs).getLast? = some (Nav1Step.clicked u) := by
        rw [List.getLast?_cons_cons] at hlast
        exact hlast
      have hrec := ih (rs.length + 1) u hlast2 (by simp)
      cases s with
      | clicked v =>
        show (if urlDispatchOk v then true
          else if rs.length + 1 == 0 then true
          else navigate1Retry (rs.length + 1) (r :: rs)) = true
        cases urlDispatchOk v <;> simp [hrec]
      | exn =>
        show (if rs.length + 1 == 0 then false
          else navigate1Retry (rs.length + 1) (r :: rs)) = true
        simp [hrec]
      | noLink d =>
        rcases d with _ | v
        · show (if rs.length + 1 == 0 then false
            else navigate1Retry (rs.length + 1) (r :: rs)) = true
          simp [hrec]
        · show (if urlDispatchOk v then true
            else if rs.length + 1 == 0 then false
            else navigate1Retry (rs.length + 1) (r :: rs)) = true
          cases urlDispatchOk v <;> simp [hrec]

/-! ### Claim C3 -/

/-- Claim C3, counterexample: three navigation attempts of main4.py all
complete the click flow on a URL that fails the dispatch check; the loop
exhausts its attempts without success and returns `True`, not a failure
sentinel. -/
theorem C3_counterexample :
    navigate4Retry 3
      [NavStep.clicked "https://go.servicem8.com/home",
       NavStep.clicked "https://go.servicem8.com/home",
       NavStep.clicked "https://go.servicem8.com/home"] = true ∧
    urlDispatchOk "https://go.servicem8.com/home" = false := by
  refine ⟨by decide, by decide⟩

/-- Claim C3, amended: browser init, page load, login and extraction loops
return their failure sentinels (`False` resp. `({}, "")`) after exhausting
their attempts and never raise, and so does navigation when its final
attempt raises; but the navigation loops of main1.py/main4.py return `True`
on a final attempt whose click flow completed even though URL verification
failed. -/
theorem C3_amended :
    (∀ (outs : List LoginStep), (∀ o ∈ outs, o = LoginStep.exn ∨
        o = LoginStep.loadFail ∨
        ∃ u, o = LoginStep.submitted u ∧ urlLoginOk u = false) →
      ∀ n, loginRetry n outs = false) ∧
    (∀ (outs : List Bool), (∀ b ∈ outs, b = false) →
      ∀ n, setupChromeRetry n outs = false) ∧
    (∀ (outs : List LoadStep), (∀ o ∈ outs, o = LoadStep.exn ∨
        ∃ u, o = LoadStep.loaded u ∧ urlLoadOk u = false) →
      ∀ n, loadSiteRetry n outs = false) ∧
    (∀ (outs : List ExtractStep), (∀ o ∈ outs, o = ExtractStep.exn ∨
        ∃ t c, o = ExtractStep.got t c ∧ t.isEmptyMap = true) →
      ∀ n, extractRetry n outs = (⟨none, none, none⟩, "")) ∧
    (∀ (outs : List NavStep), (∀ o ∈ outs, o = NavStep.exn) →
      ∀ n, navigate4Retry n outs = false) ∧
    (∀ (outs : List NavStep) (n : Nat) (u : String),
      outs.getLast? = some (NavStep.clicked u) → outs.length = n →
      navigate4Retry n outs = true) ∧
    (∀ (outs : List Nav1Step) (n : Nat) (u : String),
      outs.getLast? = some (Nav1Step.clicked u) → outs.length = n →
      navigate1Retry n outs = true) :=
  ⟨loginRetry_allFail, setupChrome_allFail, loadSite_allFail,
   extractRetry_allFail, navigate4_allExn,
   fun outs n u h1 h2 => navigate4_lastClicked outs n u h1 h2,
   fun outs n u h1 h2 => navigate1_lastClicked outs n u h1 h2⟩

/-- Claim C3, witness for the amended theorem: concrete exhausted loops
return their sentinels, and a concrete final clicked attempt returns True. -/
theorem C3_amended_witness :
    loginRetry 3 [LoginStep.exn, LoginStep.loadFail,
      LoginStep.submitted "https://go.servicem8.com/login_page"] = false ∧
    setupChromeRetry 3 [false, false, false] = false ∧
    loadSiteRetry 3 [LoadStep.exn, LoadStep.loaded "", LoadStep.exn] = false ∧
    extractRetry 3 [ExtractStep.exn, ExtractStep.got ⟨none, none, none⟩ "",
      ExtractStep.exn] = (⟨none, none, none⟩, "") ∧
    navigate4Retry 2 [NavStep.exn, NavStep.exn] = false ∧
    navigate4Retry 1 [NavStep.clicked "https://go.servicem8.com/home"] = true ∧
    navigate1Retry 1 [Nav1Step.clicked "https://go.servicem8.com/home"] = true := by
  refine ⟨?_, ?_, ?_, ?_, ?_, ?_, ?_⟩
  · exact C3_amended.1 _ (by
      intro o ho
      fin_cases ho
      · exact Or.inl rfl
      · exact Or.inr (Or.inl rfl)
      · exact Or.inr (Or.inr ⟨_, rfl, by decide⟩)) 3
  · exact C3_amended.2.1 _ (by intro b hb; fin_cases hb <;> rfl) 3
  · exact C3_amended.2.2.1 _ (by
      intro o ho
      fin_cases ho
      · exact Or.inl rfl
      · exact Or.inr ⟨_, rfl, by decide⟩
      · exact Or.inl rfl) 3
  · exact C3_amended.2.2.2.1 _ (by
      intro o ho
      fin_cases ho
      · exact Or.inl rfl
      · exact Or.inr ⟨_, _, rfl, by decide⟩
      · exact Or.inl rfl) 3
  · exact C3_amended.2.2.2.2.1 _ (by intro o ho; fin_cases ho <;> rfl) 2
  · exact C3_amended.2.2.2.2.2.1 _ 1 "https://go.servicem8.com/home"
      (by decide) (by decide)
  · exact C3_amended.2.2.2.2.2.2 _ 1 "https://go.servicem8.com/home"
      (by decide) (by decide)

/-! ### Claim C4 -/

/-- Claim C4, counterexample: when extraction fails (returns `None`), the
entry points of main1.py and main4.py `json.dump` the raw result and write
JSON `null` to result.json, not an empty array. -/
theorem C4_counterexample :
    writeResult1 none = J.jnull ∧ writeResult4 none = J.jnull ∧
    J.jnull ≠ J.jarr [] :=
  ⟨rfl, rfl, fun h => J.noConfusion h⟩

/-- Claim C4, amended: only main.py's entry point normalises a `None` or
empty result to an empty JSON array (its output is always a JSON array);
main1.py and main4.py dump the raw result, writing `null` on failure. -/
theorem C4_amended (r : Option (List Rec)) :
    writeResultMain r = J.jarr ((r.getD []).map recJ) ∧
    writeResult1 none = J.jnull ∧
    writeResult4 none = J.jnull := by
  refine ⟨?_, rfl, rfl⟩
  rcases r with _ | xs
  · rfl
  · rcases xs with _ | ⟨x, xs⟩ <;> rfl

/-! ### Claim C5 -/

/-- Claim C5: `load_device_fingerprint` returns `None` exactly when the file
is absent, unreadable, or the stored timestamp (age since epoch when
missing) is more than `30*24*60*60` seconds before now; otherwise it
returns the parsed record. -/
theorem C5_fingerprint_freshness (e : Bool) (c : Option Fingerprint) (now : ℚ) :
    (loadDeviceFingerprint e c now = none ↔
      e = false ∨ c = none ∨
        ∃ fp, c = some fp ∧ now - fp.timestamp.getD 0 > fpWindow) ∧
    (∀ fp, loadDeviceFingerprint e c now = some fp ↔
      e = true ∧ c = some fp ∧ ¬(now - fp.timestamp.getD 0 > fpWindow)) := by
  cases e <;> rcases c with _ | fp
  · simp [loadDeviceFingerprint]
  · simp [loadDeviceFingerprint]
  · simp [loadDeviceFingerprint]
  · by_cases h : now - fp.timestamp.getD 0 > fpWindow
    · constructor
      · simp only [loadDeviceFingerprint, Bool.not_true, if_pos h]
        exact ⟨fun _ => Or.inr (Or.inr ⟨fp, rfl, h⟩), fun _ => by simp [h]⟩
      · intro fp2
        simp only [loadDeviceFingerprint, Bool.not_true]
        constructor
        · intro hcontra
          rw [if_pos h] at hcontra
          exact absurd hcontra (by simp)
        · rintro ⟨-, hfp, hnot⟩
          exact absurd (Option.some.inj hfp ▸ h) hnot
    · constructor
      · simp only [loadDeviceFingerprint, Bool.not_true, if_neg h]
        constructor
        · intro hcontra
          exact absurd hcontra (by simp)
        · rintro (he | hc | ⟨fp2, hfp, hgt⟩)
          · exact absurd he (by simp)
          · exact absurd hc (by simp)
          · exact absurd (Option.some.inj hfp ▸ hgt) h
      · intro fp2
        simp only [loadDeviceFingerprint, Bool.not_true, if_neg h]
        constructor
        · intro hsome
          have hfp := Option.some.inj hsome
          subst hfp
          exact ⟨trivial, rfl, h⟩
        · rintro ⟨-, hfp, -⟩
          exact hfp

/-! ### Login characterisation for Claim C7 -/

/-- main.py / main4.py login succeeds iff some attempt within the budget
submits the form and the URL check passes. -/
theorem loginRetry_iff : ∀ (outs : List LoginStep) (n : Nat),
    loginRetry n outs = true ↔
      ∃ u, LoginStep.submitted u ∈ outs.take n ∧ urlLoginOk u = true := by
  intro outs
  induction outs with
  | nil =>
    intro n
    cases n <;> simp [loginRetry]
  | cons s rest ih =>
    intro n
    cases n with
    | zero => simp [loginRetry]
    | succ n =>
      cases s with
      | exn =>
        cases hn : n == 0 with
        | true =>
          have h0 : n = 0 := by simpa using hn
          subst h0
          simp [loginRetry]
        | false => simp [loginRetry, hn, ih n]
      | loadFail =>
        cases hn : n == 0 with
        | true =>
          have h0 : n = 0 := by simpa using hn
          subst h0
          simp [loginRetry]
        | false => simp [loginRetry, hn, ih n]
      | submitted url =>
        cases hok : urlLoginOk url with
        | true =>
          simp only [loginRetry, hok, if_true]
          constructor
          · intro _
            exact ⟨url, by simp, hok⟩
          · intro _
            trivial
        | false =>
          cases hn : n == 0 with
          | true =>
            have h0 : n = 0 := by simpa using hn
            subst h0
            simp [loginRetry, hok]
          | false => simp [loginRetry, hok, hn, ih n]

/-- main1.py login succeeds iff some attempt within the budget submits the
form, its 2FA handling reports success, AND the URL check passes. -/
theorem login1Retry_iff : ∀ (outs : List Login1Step) (n : Nat),
    login1Retry n outs = true ↔
      ∃ u, Login1Step.submitted true u ∈ outs.take n ∧ urlLoginOk u = true := by
  intro outs
  induction outs with
  | nil =>
    intro n
    cases n <;> simp [login1Retry]
  | cons s rest ih =>
    intro n
    cases n with
    | zero => simp [login1Retry]
    | succ n =>
      cases s with
      | exn =>
        cases hn : n == 0 with
        | true =>
          have h0 : n = 0 := by simpa using hn
          subst h0
          simp [login1Retry]
        | false => simp [login1Retry, hn, ih n]
      | loadFail =>
        cases hn : n == 0 with
        | true =>
          have h0 : n = 0 := by simpa using hn
          subst h0
          simp [login1Retry]
        | false => simp [login1Retry, hn, ih n]
      | submitted tfa url =>
        cases tfa with
        | false =>
          cases hn : n == 0 with
          | true =>
            have h0 : n = 0 := by simpa using hn
            subst h0
            simp [login1Retry]
          | false => simp [login1Retry, hn, ih n]
        | true =>
          cases hok : urlLoginOk url with
          | true =>
            simp only [login1Retry, hok, Bool.not_true, if_true, if_false,
              Bool.false_eq_true]
            constructor
            · intro _
              exact ⟨url, by simp, hok⟩
            · intro _
              simp
          | false =>
            cases hn : n == 0 with
            | true =>
              have h0 : n = 0 := by simpa using hn
              subst h0
              simp [login1Retry, hok]
            | false => simp [login1Retry, hok, hn, ih n]


/-! ### Claim C7 -/

/-- Claim C7, counterexample: in main1.py every attempt submits the form and
ends on a URL that passes the check, but the 2FA handler reports failure, so
login returns `False` — success is NOT equivalent to the URL condition. -/
theorem C7_counterexample :
    login1Retry 3
      [Login1Step.submitted false "https://go.servicem8.com/dashboard",
       Login1Step.submitted false "https://go.servicem8.com/dashboard",
       Login1Step.submitted false "https://go.servicem8.com/dashboard"]
      = false ∧
    urlLoginOk "https://go.servicem8.com/dashboard" = true := by
  refine ⟨by decide, by decide⟩

/-- Claim C7, amended: in main.py/main4.py login returns True iff some
attempt submits the form and the URL then contains `servicem8.com` and no
case-insensitive `login`; in main1.py success additionally requires the 2FA
handling of that attempt to report success. -/
theorem C7_amended :
    (∀ (outs : List LoginStep) (n : Nat),
      loginRetry n outs = true ↔
        ∃ u, LoginStep.submitted u ∈ outs.take n ∧ urlLoginOk u = true) ∧
    (∀ (outs : List Login1Step) (n : Nat),
      login1Retry n outs = true ↔
        ∃ u, Login1Step.submitted true u ∈ outs.take n ∧
          urlLoginOk u = true) :=
  ⟨loginRetry_iff, login1Retry_iff⟩

/-! ### Cookie-jar lemmas for Claim C6 -/

/-- The variants actually tried are the rejected prefix followed by the
first accepted one. -/
theorem triedVariants_eq (accepts : CookieAttempt → Bool) (c : Cookie) :
    ∀ vs, triedVariants accepts c vs =
      vs.takeWhile (fun v => !accepts (cookieAttempt c v)) ++
      (vs.find? (fun v => accepts (cookieAttempt c v))).toList := by
  intro vs
  induction vs with
  | nil => rfl
  | cons v vs ih =>
    cases ha : accepts (cookieAttempt c v) with
    | true => simp [triedVariants, ha, List.takeWhile_cons, List.find?]
    | false => simp [triedVariants, ha, List.takeWhile_cons, List.find?, ih]

/-- For a cookie that has a domain, the source's variant order is exactly
the claim's. -/
theorem sourceVariants_eq_claim (c : Cookie) (d : String)
    (h : c.domain = some d) : sourceVariants c = claimVariants c := by
  unfold sourceVariants claimVariants
  rw [h]
  simp

/-- `tryVariants` is an ordered short-circuit `any`. -/
theorem tryVariants_any (accepts : CookieAttempt → Bool) (c : Cookie) :
    ∀ vs, tryVariants accepts c vs =
      vs.any (fun v => accepts (cookieAttempt c v)) := by
  intro vs
  induction vs with
  | nil => rfl
  | cons v vs ih => simp [tryVariants, ih]

/-- Acceptance over the source's variants agrees with acceptance over the
claim's (the only divergence, a domain-less cookie, duplicates the
no-domain attempt and cannot change the outcome). -/
theorem trySource_eq_claimAny (accepts : CookieAttempt → Bool) (c : Cookie) :
    tryVariants accepts c (sourceVariants c) =
      (claimVariants c).any (fun v => accepts (cookieAttempt c v)) := by
  rcases hd : c.domain with _ | d
  · rw [tryVariants_any]
    unfold sourceVariants claimVariants
    rw [hd]
    have hsw : ("" : String).startsWith "." = false := by decide
    simp [containsSub, hsw, Bool.or_self]
  · rw [sourceVariants_eq_claim c d hd, tryVariants_any]

/-- `load_cookies` returns `successful_cookies > 0`, i.e. whether some
cookie had an accepted variant. -/
theorem loadCookies_any (accepts : CookieAttempt → Bool) (jar : List Cookie) :
    loadCookies accepts jar =
      jar.any (fun c => tryVariants accepts c (sourceVariants c)) := by
  unfold loadCookies
  cases h : jar.any (fun c => tryVariants accepts c (sourceVariants c)) with
  | true =>
    rw [List.any_eq_true] at h
    obtain ⟨a, ha, hacc⟩ := h
    have hne : jar.countP
        (fun c => tryVariants accepts c (sourceVariants c)) ≠ 0 := by
      rw [Ne, List.countP_eq_zero]
      intro hall
      exact absurd hacc (hall a ha)
    simp [Nat.pos_of_ne_zero hne]
  | false =>
    rw [List.any_eq_false] at h
    have hz : jar.countP (fun c => tryVariants accepts c (sourceVariants c))
        = 0 := by
      rw [List.countP_eq_zero]
      intro a ha
      simp [h a ha]
    simp [hz]

/-! ### Claim C6 -/

/-- Claim C6: `load_cookies` strips the expiry, tries the domain variants in
the claimed fixed order (for every cookie that has a domain the source's
order is exactly the claimed one), stops at the first accepted variant, and
returns True iff at least one cookie was accepted under some variant. -/
theorem C6_cookie_fallback (accepts : CookieAttempt → Bool) (c : Cookie)
    (jar : List Cookie) :
    (∀ d, c.domain = some d → sourceVariants c = claimVariants c) ∧
    (triedVariants accepts c (sourceVariants c) =
      (sourceVariants c).takeWhile (fun v => !accepts (cookieAttempt c v)) ++
      ((sourceVariants c).find?
        (fun v => accepts (cookieAttempt c v))).toList) ∧
    (tryVariants accepts c (sourceVariants c) =
      (claimVariants c).any (fun v => accepts (cookieAttempt c v))) ∧
    (loadCookies accepts jar =
      jar.any (fun c2 =>
        (claimVariants c2).any (fun v => accepts (cookieAttempt c2 v)))) := by
  refine ⟨fun d hd => sourceVariants_eq_claim c d hd,
    triedVariants_eq accepts c (sourceVariants c),
    trySource_eq_claimAny accepts c, ?_⟩
  rw [loadCookies_any]
  congr 1
  funext c2
  exact trySource_eq_claimAny accepts c2

/-- Claim C6, witness: the theorem applied to a concrete accept oracle,
cookie and jar, with the domain hypothesis discharged. -/
theorem C6_cookie_fallback_witness :
    sourceVariants ⟨"sid", "v1", some ".servicem8.com", some 42⟩ =
      claimVariants ⟨"sid", "v1", some ".servicem8.com", some 42⟩ ∧
    loadCookies (fun a => a.domain == some "go.servicem8.com")
      [⟨"sid", "v1", some ".servicem8.com", some 42⟩] =
      ([⟨"sid", "v1", some ".servicem8.com", some 42⟩] : List Cookie).any
        (fun c2 => (claimVariants c2).any
          (fun v => (fun a => a.domain == some "go.servicem8.com")
            (cookieAttempt c2 v))) := by
  have h := C6_cookie_fallback (fun a => a.domain == some "go.servicem8.com")
    ⟨"sid", "v1", some ".servicem8.com", some 42⟩
    [⟨"sid", "v1", some ".servicem8.com", some 42⟩]
  exact ⟨h.1 ".servicem8.com" rfl, h.2.2.2⟩

/-! ### Claim C9 -/

/-- Claim C9: the webhook step of main4.py posts only a truthy result and
judges success by `status == 200` alone, and webhook_test.py likewise exits
successfully exactly on status 200 — every other status, other 2xx codes
included, is failure. -/
theorem C9_webhook_status (r : Option (List Rec)) (s : Nat) :
    (webhookSend4 r s = some true ↔
      ((∃ xs, r = some xs ∧ xs ≠ []) ∧ s = 200)) ∧
    (webhookTestJudge s = true ↔ s = 200) := by
  constructor
  · rcases r with _ | xs
    · simp [webhookSend4]
    · rcases xs with _ | ⟨x, xs⟩
      · simp [webhookSend4]
      · simp [webhookSend4]
  · simp [webhookTestJudge]

/-! ### Response-shape lemmas for Claim C8 -/

theorem create4_keys (t : Toks1) (ck : String) :
    (createApiResponse4 t ck).all
      (fun r => recKeys r == ["url", "cookie", "s_auth"]) = true := by
  rcases t with ⟨c, u, s⟩
  rcases c with _ | tc <;> rcases u with _ | tu <;> rcases s with _ | ts <;>
    simp [createApiResponse4, recKeys]

theorem create4_sauths (t : Toks1) (ck : String) :
    (createApiResponse4 t ck).filterMap (fun r => recGet "s_auth" r) =
      [t.calendar, t.update, t.save].reduceOption := by
  have h1 : ("url" : String) ≠ "s_auth" := by decide
  have h2 : ("cookie" : String) ≠ "s_auth" := by decide
  rcases t with ⟨c, u, s⟩
  rcases c with _ | tc <;> rcases u with _ | tu <;> rcases s with _ | ts <;>
    simp [createApiResponse4, recGet, h1, h2, List.reduceOption]

theorem create1_keys (t : Toks1) (ck : String) :
    (createApiResponse1 t ck).endpoints.all
      (fun r => recKeys r == ["url", "s_auth"]) = true := by
  rcases t with ⟨c, u, s⟩
  rcases c with _ | tc <;> rcases u with _ | tu <;> rcases s with _ | ts <;>
    simp [createApiResponse1, recKeys]

theorem create1_sauths (t : Toks1) (ck : String) :
    (createApiResponse1 t ck).endpoints.filterMap
      (fun r => recGet "s_auth" r) =
      [t.calendar, t.update, t.save].reduceOption := by
  have h1 : ("url" : String) ≠ "s_auth" := by decide
  rcases t with ⟨c, u, s⟩
  rcases c with _ | tc <;> rcases u with _ | tu <;> rcases s with _ | ts <;>
    simp [createApiResponse1, recGet, h1, List.reduceOption]

theorem createMain_rpc_keys (tm : ToksM) (ck : String)
    (h : (tm.calendar.isSome || tm.update.isSome || tm.save.isSome) = true) :
    (createApiResponseMain tm ck).all
      (fun r => recKeys r == ["url", "cookie", "s_auth"]) = true := by
  rcases tm with ⟨c, u, s, g, f, e⟩
  rcases c with _ | tc <;> rcases u with _ | tu <;> rcases s with _ | ts <;>
    simp_all [createApiResponseMain, recKeys]

theorem createMain_rpc_sauths (tm : ToksM) (ck : String)
    (h : (tm.calendar.isSome || tm.update.isSome || tm.save.isSome) = true) :
    (createApiResponseMain tm ck).filterMap (fun r => recGet "s_auth" r) =
      [tm.calendar, tm.update, tm.save].reduceOption := by
  have h1 : ("url" : String) ≠ "s_auth" := by decide
  have h2 : ("cookie" : String) ≠ "s_auth" := by decide
  rcases tm with ⟨c, u, s, g, f, e⟩
  rcases c with _ | tc <;> rcases u with _ | tu <;> rcases s with _ | ts <;>
    simp_all [createApiResponseMain, recGet, h1, h2, List.reduceOption]

theorem createMain_fallback_keys (tm : ToksM) (ck : String)
    (h : (tm.calendar.isSome || tm.update.isSome || tm.save.isSome) = false) :
    (createApiResponseMain tm ck).all
      (fun r => recKeys r == ["url", "cookie", "s_auth", "type"]) = true := by
  rcases tm with ⟨c, u, s, g, f, e⟩
  rcases c with _ | tc <;> rcases u with _ | tu <;> rcases s with _ | ts <;>
    rcases g with _ | tg <;> rcases f with _ | tf <;> rcases e with _ | te <;>
    simp_all [createApiResponseMain, recKeys]

/-! ### Claim C8 -/

/-- Claim C8, counterexample: main.py is a flat-list version, but when only
a fallback token was found its records carry a fourth key `type`, so not
every element has exactly the keys `{url, cookie, s_auth}`. -/
theorem C8_counterexample :
    (createApiResponseMain ⟨none, none, none, some "ab", none, none⟩
      "ck").map recKeys = [["url", "cookie", "s_auth", "type"]] ∧
    (["url", "cookie", "s_auth", "type"] : List String) ≠
      ["url", "cookie", "s_auth"] := by
  refine ⟨by decide, by decide⟩

/-- Claim C8, amended: as claimed — main4.py emits `{url, cookie, s_auth}`
records and main1.py `{cookie, api_endpoints: [{url, s_auth}]}`, at most one
record per found RPC-name token in the fixed calendar/update/save order, and
main.py does the same whenever some RPC-name token was found — EXCEPT that
main.py's fallback records (emitted only when no RPC-name token exists)
carry an extra `type` key. -/
theorem C8_amended (t1 : Toks1) (tm : ToksM) (ck : String) :
    ((createApiResponse4 t1 ck).all
      (fun r => recKeys r == ["url", "cookie", "s_auth"]) = true) ∧
    ((createApiResponse4 t1 ck).filterMap (fun r => recGet "s_auth" r) =
      [t1.calendar, t1.update, t1.save].reduceOption) ∧
    ((createApiResponse1 t1 ck).cookie = ck) ∧
    ((createApiResponse1 t1 ck).endpoints.all
      (fun r => recKeys r == ["url", "s_auth"]) = true) ∧
    ((createApiResponse1 t1 ck).endpoints.filterMap
      (fun r => recGet "s_auth" r) =
      [t1.calendar, t1.update, t1.save].reduceOption) ∧
    ((tm.calendar.isSome || tm.update.isSome || tm.save.isSome) = true →
      ((createApiResponseMain tm ck).all
        (fun r => recKeys r == ["url", "cookie", "s_auth"]) = true) ∧
      ((createApiResponseMain tm ck).filterMap (fun r => recGet "s_auth" r) =
        [tm.calendar, tm.update, tm.save].reduceOption)) ∧
    ((tm.calendar.isSome || tm.update.isSome || tm.save.isSome) = false →
      (createApiResponseMain tm ck).all
        (fun r => recKeys r == ["url", "cookie", "s_auth", "type"]) = true) :=
  ⟨create4_keys t1 ck, create4_sauths t1 ck, rfl, create1_keys t1 ck,
   create1_sauths t1 ck,
   fun h => ⟨createMain_rpc_keys tm ck h, createMain_rpc_sauths tm ck h⟩,
   fun h => createMain_fallback_keys tm ck h⟩

/-- Claim C8, witness: the theorem at concrete token maps, with both
RPC-presence hypotheses discharged. -/
theorem C8_amended_witness :
    ((createApiResponse4 ⟨some "aa", none, some "cc"⟩ "ck").filterMap
      (fun r => recGet "s_auth" r) =
      [some "aa", none, some "cc"].reduceOption) ∧
    ((createApiResponseMain ⟨some "aa", none, none, none, none, none⟩
      "ck").all (fun r => recKeys r == ["url", "cookie", "s_auth"]) = true) ∧
    ((createApiResponseMain ⟨none, none, none, some "ab", none, none⟩
      "ck").all (fun r => recKeys r == ["url", "cookie", "s_auth", "type"])
      = true) := by
  refine ⟨?_, ?_, ?_⟩
  · exact (C8_amended ⟨some "aa", none, some "cc"⟩
      ⟨none, none, none, none, none, none⟩ "ck").2.1
  · exact ((C8_amended ⟨none, none, none⟩
      ⟨some "aa", none, none, none, none, none⟩ "ck").2.2.2.2.2.1 (by decide)).1
  · exact (C8_amended ⟨none, none, none⟩
      ⟨none, none, none, some "ab", none, none⟩ "ck").2.2.2.2.2.2 (by decide)

/-! ### Cookie-string lemmas for Claim C10 -/

theorem append_ne_empty_left (a b : String) (h : a ≠ "") : a ++ b ≠ "" := by
  intro he
  apply h
  apply String.ext
  have hd := congrArg String.data he
  rw [String.data_append] at hd
  have := (List.append_eq_nil.mp hd).1
  rw [this]

theorem append_ne_empty_right (a b : String) (h : b ≠ "") : a ++ b ≠ "" := by
  intro he
  apply h
  apply String.ext
  have hd := congrArg String.data he
  rw [String.data_append] at hd
  have := (List.append_eq_nil.mp hd).2
  rw [this]

/-- The pair rendering `name=value` is never empty. -/
theorem pairStr_ne_empty (n v : String) : n ++ "=" ++ v ≠ "" :=
  append_ne_empty_left _ _
    (append_ne_empty_right _ _ (show ("=" : String) ≠ "" by decide))

/-- Accumulated form of the cookie-header fold once the accumulator is
nonempty: every further cookie appends `"; name=value"`. -/
theorem cookieHeader_go (l : List (String × String)) :
    ∀ acc : String, acc ≠ "" →
      l.foldl (fun acc nv =>
        (if acc = "" then acc else acc ++ "; ") ++ nv.1 ++ "=" ++ nv.2) acc =
      acc ++ l.foldr (fun nv r => "; " ++ nv.1 ++ "=" ++ nv.2 ++ r) "" := by
  induction l with
  | nil =>
    intro acc _
    simp [String.append_empty]
  | cons nv l ih =>
    intro acc hacc
    rw [List.foldl_cons, List.foldr_cons, if_neg hacc]
    have hne : acc ++ "; " ++ nv.1 ++ "=" ++ nv.2 ≠ "" :=
      append_ne_empty_left _ _
        (append_ne_empty_right _ _ (show ("=" : String) ≠ "" by decide))
    rw [ih _ hne]
    apply String.ext
    simp [String.data_append, List.append_assoc]

/-- The claim's join, unfolded one pair at a time. -/
theorem claimCookieJoin_cons (nv : String × String)
    (l : List (String × String)) :
    claimCookieJoin (nv :: l) =
      (nv.1 ++ "=" ++ nv.2) ++
        l.foldr (fun nv r => "; " ++ nv.1 ++ "=" ++ nv.2 ++ r) "" := by
  induction l generalizing nv with
  | nil => simp [claimCookieJoin, String.append_empty]
  | cons m ms ih =>
    have hstep : claimCookieJoin (nv :: m :: ms) =
        nv.1 ++ "=" ++ nv.2 ++ "; " ++ claimCookieJoin (m :: ms) := rfl
    rw [hstep, ih m]
    apply String.ext
    simp [String.data_append, List.append_assoc]

/-- The source fold equals the claim's join. -/
theorem cookieHeader_eq_claim (cookies : List (String × String)) :
    cookieHeader cookies = claimCookieJoin cookies := by
  rcases cookies with _ | ⟨nv, l⟩
  · rfl
  · unfold cookieHeader
    rw [List.foldl_cons, if_pos rfl]
    have hne : ("" : String) ++ nv.1 ++ "=" ++ nv.2 ≠ "" :=
      append_ne_empty_left _ _
        (append_ne_empty_right _ _ (show ("=" : String) ≠ "" by decide))
    rw [cookieHeader_go l _ hne, claimCookieJoin_cons nv l]
    apply String.ext
    simp [String.data_append, List.append_assoc]

/-- The cookie string is empty exactly when there are no cookies. -/
theorem cookieHeader_empty_iff (cookies : List (String × String)) :
    cookieHeader cookies = "" ↔ cookies = [] := by
  rcases cookies with _ | ⟨nv, l⟩
  · simp [cookieHeader]
  · constructor
    · intro h
      unfold cookieHeader at h
      rw [List.foldl_cons, if_pos rfl] at h
      have hne : ("" : String) ++ nv.1 ++ "=" ++ nv.2 ≠ "" :=
        append_ne_empty_left _ _
          (append_ne_empty_right _ _ (show ("=" : String) ≠ "" by decide))
      rw [cookieHeader_go l _ hne] at h
      exact absurd h (append_ne_empty_left _ _ hne)
    · intro h
      exact absurd h (by simp)

/-- Every record of main4's response carries the cookie string unchanged. -/
theorem create4_cookieField (t : Toks1) (ck : String) :
    (createApiResponse4 t ck).all
      (fun r => recGet "cookie" r == some ck) = true := by
  have h1 : ("url" : String) ≠ "cookie" := by decide
  rcases t with ⟨c, u, s⟩
  rcases c with _ | tc <;> rcases u with _ | tu <;> rcases s with _ | ts <;>
    simp [createApiResponse4, recGet, h1]

/-! ### Claim C10 -/

/-- Claim C10: the cookie string is the driver-reported cookies rendered
`name=value` and joined by `"; "` with no leading or trailing separator,
empty exactly when there are no cookies; and the same string is placed
unchanged into every output record (main4's flat records shown here,
main1.py stores it once at the top level of its response). -/
theorem C10_cookie_string (cookies : List (String × String)) (t : Toks1) :
    cookieHeader cookies = claimCookieJoin cookies ∧
    (cookieHeader cookies = "" ↔ cookies = []) ∧
    ((createApiResponse4 t (cookieHeader cookies)).all
      (fun r => recGet "cookie" r == some (cookieHeader cookies)) = true) ∧
    ((createApiResponse1 t (cookieHeader cookies)).cookie =
      cookieHeader cookies) :=
  ⟨cookieHeader_eq_claim cookies, cookieHeader_empty_iff cookies,
   create4_cookieField t (cookieHeader cookies), rfl⟩

end SM8
